import Mathlib

/-!
Shallow embedding of the Schema Introspection & Field Classification Engine
of `src/lib/utils/database.js` (aegisx-platform/crud-generator).

JavaScript strings become `String`, arrays become `List`, `null`/`undefined`
become `Option`, async functions that may reject become `Except String`
values, and the knex catalog queries become fields of a `Catalog` record so
that the pure joining / classification logic can be stated and proved about.
Regular-expression matching in `extractConstraintValues` is embedded by
specialised scanners whose observable behaviour (the captured group fed to
the downstream split/trim/strip pipeline) follows the JS regex semantics.
-/

/-- Whitespace test mirroring the regex class used in the source patterns. -/
def isWsChar (c : Char) : Bool :=
  c = ' ' || c = '\t' || c = '\n' || c = '\r'

/-- Drop a maximal leading whitespace run (the greedy `\s*` of the regexes). -/
def dropWs : List Char → List Char
  | [] => []
  | c :: cs => if isWsChar c then dropWs cs else c :: cs

/-- JS `String.prototype.toLowerCase` (ASCII range, as the source data uses). -/
def jsToLower (s : String) : String :=
  String.mk (s.toList.map Char.toLower)

/-- JS `String.prototype.toUpperCase` (ASCII range, as the source data uses). -/
def jsToUpper (s : String) : String :=
  String.mk (s.toList.map Char.toUpper)

/-- JS `String.prototype.trim`: strip whitespace from both ends. -/
def jsTrim (s : String) : String :=
  String.mk ((dropWs (dropWs s.toList).reverse).reverse)

/-- Helper for `splitComma`: split a character list at every separator. -/
def splitCharAux (sep : Char) : List Char → List Char → List (List Char)
  | [], acc => [acc.reverse]
  | c :: cs, acc =>
    if c = sep then acc.reverse :: splitCharAux sep cs []
    else splitCharAux sep cs (c :: acc)

/-- JS `String.prototype.split` with a one-character comma separator. -/
def splitComma (s : String) : List String :=
  (splitCharAux ',' s.toList []).map String.mk

/-- JS `Array.prototype.join` with an underscore separator. -/
def joinUnderscore : List String → String
  | [] => ""
  | [x] => x
  | x :: xs => x ++ "_" ++ joinUnderscore xs

/-- Helper for `strContains`: does `pat` occur as a contiguous sublist? -/
def strContainsAux (pat : List Char) : List Char → Bool
  | [] => pat.isPrefixOf ([] : List Char)
  | c :: cs => pat.isPrefixOf (c :: cs) || strContainsAux pat cs

/-- JS `String.prototype.includes`. -/
def strContains (s pat : String) : Bool :=
  strContainsAux pat.toList s.toList

/-- JS `String.prototype.startsWith` for a single underscore (array udt test). -/
def startsWithUnderscore (s : String) : Bool :=
  match s.toList with
  | [] => false
  | c :: _ => c = '_'

/--
One row of `information_schema.columns` as consumed by the engine
(`column_name`, `data_type`, `is_nullable`, `column_default`,
`character_maximum_length`, `numeric_precision`, `numeric_scale`,
`udt_name`).
-/
structure RawColumn where
  column_name : String := ""
  data_type : String := ""
  is_nullable : String := "NO"
  column_default : Option String := none
  character_maximum_length : Option Nat := none
  numeric_precision : Option Nat := none
  numeric_scale : Option Nat := none
  udt_name : Option String := none
  deriving DecidableEq

/-- One row of the enum-info catalog query (`column_name`, `enum_name`, `enum_values`). -/
structure EnumRow where
  column_name : String := ""
  enum_name : String := ""
  enum_values : List String := []
  deriving DecidableEq

/-- One row of the check-constraint catalog query (`column_name`, `check_clause`). -/
structure CheckRow where
  column_name : String := ""
  check_clause : String := ""
  deriving DecidableEq

/-- One row of the foreign-key catalog query. -/
structure FKRow where
  column_name : String := ""
  foreign_table_name : String := ""
  foreign_column_name : String := ""
  constraint_name : String := ""
  deriving DecidableEq

/--
`FIELD_NAME_PATTERNS` of the source: ordered association list from field
type to the name keywords that imply it (JS object insertion order).
-/
def FIELD_NAME_PATTERNS : List (String × List String) :=
  [ ("email", ["email", "e_mail", "mail"]),
    ("password", ["password", "passwd", "pwd", "pass"]),
    ("url", ["url", "link", "website", "homepage"]),
    ("phone", ["phone", "tel", "telephone", "mobile", "cell"]),
    ("color", ["color", "colour"]),
    ("textarea", ["description", "content", "body", "message", "notes",
                  "comment", "text", "bio"]),
    ("slug", ["slug", "handle"]),
    ("search", ["search", "query"]),
    ("file", ["file", "attachment", "upload"]),
    ("image", ["image", "img", "photo", "picture", "avatar"]),
    ("currency", ["price", "cost", "amount", "fee", "salary"]),
    ("percentage", ["percent", "rate", "ratio"]) ]

/-- `getFieldTypeFromName` of the source: first pattern group whose keyword occurs in the name. -/
def getFieldTypeFromName (columnName : String) : Option String :=
  let colName := jsToLower columnName
  (FIELD_NAME_PATTERNS.find? (fun p => p.2.any (fun pat => strContains colName pat))).map
    (fun p => p.1)

/-- `POSTGRES_TYPE_MAPPING` of the source as a lookup function. -/
def POSTGRES_TYPE_MAPPING (key : String) : Option String :=
  if key = "smallint" then some "number"
  else if key = "integer" then some "number"
  else if key = "bigint" then some "bigint"
  else if key = "decimal" then some "decimal"
  else if key = "numeric" then some "decimal"
  else if key = "real" then some "float"
  else if key = "double precision" then some "float"
  else if key = "serial" then some "serial"
  else if key = "bigserial" then some "serial"
  else if key = "smallserial" then some "serial"
  else if key = "character varying" then some "varchar"
  else if key = "varchar" then some "varchar"
  else if key = "character" then some "char"
  else if key = "char" then some "char"
  else if key = "text" then some "textarea"
  else if key = "timestamp without time zone" then some "timestamp"
  else if key = "timestamp with time zone" then some "timestamptz"
  else if key = "timestamp" then some "timestamp"
  else if key = "timestamptz" then some "timestamptz"
  else if key = "date" then some "date"
  else if key = "time without time zone" then some "time"
  else if key = "time with time zone" then some "timetz"
  else if key = "time" then some "time"
  else if key = "interval" then some "interval"
  else if key = "boolean" then some "boolean"
  else if key = "bool" then some "boolean"
  else if key = "bytea" then some "binary"
  else if key = "json" then some "json"
  else if key = "jsonb" then some "jsonb"
  else if key = "uuid" then some "uuid"
  else if key = "inet" then some "inet"
  else if key = "cidr" then some "cidr"
  else if key = "macaddr" then some "macaddr"
  else if key = "macaddr8" then some "macaddr"
  else if key = "bit" then some "bit"
  else if key = "bit varying" then some "varbit"
  else if key = "point" then some "point"
  else if key = "line" then some "line"
  else if key = "lseg" then some "lseg"
  else if key = "box" then some "box"
  else if key = "path" then some "path"
  else if key = "polygon" then some "polygon"
  else if key = "circle" then some "circle"
  else if key = "xml" then some "xml"
  else if key = "USER-DEFINED" then some "enum"
  else none

/--
`determineFieldType(column, isForeignKey, isEnum)` of the source: the
first-match-wins classifier mapping a raw column to a semantic field kind.
-/
def determineFieldType (column : RawColumn) (isForeignKey : Bool) (isEnum : Bool) : String :=
  let colName := jsToLower column.column_name
  let dataType := jsToLower column.data_type
  let udtName := jsToLower (column.udt_name.getD "")
  if colName = "id" then "primary-key"
  else if colName ∈ ["created_at", "updated_at", "deleted_at"] then "audit-timestamp"
  else if colName ∈ ["created_by", "updated_by", "deleted_by"] then "audit-user"
  else if isForeignKey then "foreign-key-dropdown"
  else if isEnum then "enum-select"
  else
    match POSTGRES_TYPE_MAPPING dataType with
    | some fieldType =>
      if strContains dataType "[]" || strContains udtName "_" then "array"
      else if fieldType = "varchar" || fieldType = "char" || fieldType = "textarea" then
        match getFieldTypeFromName colName with
        | some nameBasedType =>
          if nameBasedType ≠ "text" then nameBasedType else fieldType
        | none => fieldType
      else fieldType
    | none =>
      match (if udtName ≠ "" then POSTGRES_TYPE_MAPPING udtName else none) with
      | some t => t
      | none =>
        match getFieldTypeFromName colName with
        | some nameBasedType => nameBasedType
        | none =>
          if dataType ∈ ["timestamp without time zone", "timestamp with time zone", "date"] then
            "datetime"
          else if dataType ∈ ["integer", "bigint", "smallint", "decimal", "numeric",
                              "real", "double precision"] then
            "number"
          else "text"

/--
A filtering strategy: category tag, allowed predicate list, optional format
tag — one value of the source's `FIELD_FILTERING_STRATEGIES` table.
-/
structure FilteringStrategy where
  category : String
  filters : List String
  format : Option String := none
  deriving DecidableEq

/-- The `date` entry of `FIELD_FILTERING_STRATEGIES`. -/
def dateStrategy : FilteringStrategy :=
  { category := "date", filters := ["equals", "range"], format := some "date" }

/-- The `timestamp` entry of `FIELD_FILTERING_STRATEGIES`. -/
def timestampStrategy : FilteringStrategy :=
  { category := "datetime", filters := ["equals", "range"], format := some "date-time" }

/-- The `timestamptz` entry of `FIELD_FILTERING_STRATEGIES`. -/
def timestamptzStrategy : FilteringStrategy :=
  { category := "datetime", filters := ["equals", "range"], format := some "date-time" }

/-- The `time` entry of `FIELD_FILTERING_STRATEGIES`. -/
def timeStrategy : FilteringStrategy :=
  { category := "time", filters := ["equals", "range"], format := some "time" }

/-- The `number` entry of `FIELD_FILTERING_STRATEGIES`. -/
def numberStrategy : FilteringStrategy :=
  { category := "numeric", filters := ["equals", "range", "in_array"] }

/-- The `decimal` entry of `FIELD_FILTERING_STRATEGIES`. -/
def decimalStrategy : FilteringStrategy :=
  { category := "numeric", filters := ["equals", "range"] }

/-- The `bigint` entry of `FIELD_FILTERING_STRATEGIES`. -/
def bigintStrategy : FilteringStrategy :=
  { category := "numeric", filters := ["equals", "range", "in_array"] }

/-- The `varchar` entry of `FIELD_FILTERING_STRATEGIES`. -/
def varcharStrategy : FilteringStrategy :=
  { category := "string", filters := ["equals", "contains", "starts_with", "ends_with"] }

/-- The `char` entry of `FIELD_FILTERING_STRATEGIES`. -/
def charStrategy : FilteringStrategy :=
  { category := "string", filters := ["equals", "contains"] }

/-- The `textarea` entry of `FIELD_FILTERING_STRATEGIES`. -/
def textareaStrategy : FilteringStrategy :=
  { category := "text", filters := ["contains", "fulltext"] }

/-- The `boolean` entry of `FIELD_FILTERING_STRATEGIES`. -/
def booleanStrategy : FilteringStrategy :=
  { category := "boolean", filters := ["equals", "null_check"] }

/-- The `uuid` entry of `FIELD_FILTERING_STRATEGIES`. -/
def uuidStrategy : FilteringStrategy :=
  { category := "uuid", filters := ["equals", "in_array", "null_check"] }

/-- The `enum-select` entry of `FIELD_FILTERING_STRATEGIES`. -/
def enumSelectStrategy : FilteringStrategy :=
  { category := "enum", filters := ["equals", "in_array", "not_in_array"] }

/-- The `foreign-key-dropdown` entry of `FIELD_FILTERING_STRATEGIES`. -/
def foreignKeyDropdownStrategy : FilteringStrategy :=
  { category := "foreign_key", filters := ["equals", "in_array", "null_check"] }

/-- The fallback strategy for unknown types in `getFieldFilteringStrategy`. -/
def unknownStrategy : FilteringStrategy :=
  { category := "unknown", filters := ["equals"] }

/-- The `FIELD_FILTERING_STRATEGIES` object of the source as a key/value table. -/
def FIELD_FILTERING_STRATEGIES_TABLE : List (String × FilteringStrategy) :=
  [ ("date", dateStrategy),
    ("timestamp", timestampStrategy),
    ("timestamptz", timestamptzStrategy),
    ("time", timeStrategy),
    ("number", numberStrategy),
    ("decimal", decimalStrategy),
    ("bigint", bigintStrategy),
    ("varchar", varcharStrategy),
    ("char", charStrategy),
    ("textarea", textareaStrategy),
    ("boolean", booleanStrategy),
    ("uuid", uuidStrategy),
    ("enum-select", enumSelectStrategy),
    ("foreign-key-dropdown", foreignKeyDropdownStrategy) ]

/-- `FIELD_FILTERING_STRATEGIES[key]` of the source (a JS property lookup). -/
def FIELD_FILTERING_STRATEGIES (key : String) : Option FilteringStrategy :=
  (FIELD_FILTERING_STRATEGIES_TABLE.find? (fun p => p.1 = key)).map Prod.snd

/--
`getFieldFilteringStrategy(column, fieldType)` of the source: semantic-kind
table, then catalog-type table, then substring heuristics, then total
fallback.
-/
def getFieldFilteringStrategy (column : RawColumn) (fieldType : String) : FilteringStrategy :=
  let dataType := jsToLower column.data_type
  let udtName := jsToLower (column.udt_name.getD "")
  match FIELD_FILTERING_STRATEGIES fieldType with
  | some s => s
  | none =>
    let mappedType :=
      match POSTGRES_TYPE_MAPPING dataType with
      | some t => some t
      | none => POSTGRES_TYPE_MAPPING udtName
    match mappedType.bind FIELD_FILTERING_STRATEGIES with
    | some s => s
    | none =>
      if strContains dataType "timestamp" || strContains dataType "date" then
        timestampStrategy
      else if strContains dataType "int" || strContains dataType "numeric" ||
              strContains dataType "decimal" then
        numberStrategy
      else if strContains dataType "varchar" || strContains dataType "text" ||
              strContains dataType "char" then
        varcharStrategy
      else if strContains dataType "bool" then booleanStrategy
      else if strContains dataType "uuid" then uuidStrategy
      else unknownStrategy

/-- Is the character a single or double quote (the class of the strip regex)? -/
def isQuoteChar (c : Char) : Bool :=
  c = '\'' || c = '"'

/--
The per-value `replace` of the source patterns: remove one leading and one
trailing quote character (regex `^['"]|['"]$` with the global flag).
-/
def stripEdgeQuotes (s : String) : String :=
  let l := s.toList
  let l := match l with
    | c :: rest => if isQuoteChar c then rest else c :: rest
    | [] => []
  let l := match l.reverse with
    | c :: rest => if isQuoteChar c then rest.reverse else (c :: rest).reverse
    | [] => []
  String.mk l

/-- Case-insensitive literal match: on success, the rest of the input. -/
def matchLitCI : List Char → List Char → Option (List Char)
  | [], rest => some rest
  | _ :: _, [] => none
  | p :: ps, c :: cs => if p.toLower = c.toLower then matchLitCI ps cs else none

/-- Expect one exact character; on success, the rest of the input. -/
def expectChar (x : Char) : List Char → Option (List Char)
  | [] => none
  | c :: cs => if c = x then some cs else none

/-- Case-sensitive literal match: on success, the rest of the input. -/
def matchLit : List Char → List Char → Option (List Char)
  | [], rest => some rest
  | _ :: _, [] => none
  | p :: ps, c :: cs => if p = c then matchLit ps cs else none

/--
Try the regex `IN\s*\(\s*([^)]+)\s*\)` at the head of the input and return
the text between the opening parenthesis and the first closing one.  The
greedy leading `\s*` of the capture is left in place: the downstream
per-value `trim` erases it, so the observable result is the regex's.
-/
def matchINAt (l : List Char) : Option (List Char) := do
  let r ← matchLitCI "in".toList l
  let r := dropWs r
  let r ← expectChar '(' r
  let inner := r.takeWhile (fun c => c ≠ ')')
  let rest := r.dropWhile (fun c => c ≠ ')')
  match rest with
  | ')' :: _ => if inner.isEmpty then none else some inner
  | _ => none

/-- Scan left to right for the first position where `matchINAt` succeeds. -/
def findIN : List Char → Option (List Char)
  | [] => none
  | c :: cs =>
    match matchINAt (c :: cs) with
    | some cap => some cap
    | none => findIN cs

/--
Try, at the head of the input, the regex
`=\s*ANY\s*\(\s*\(\s*ARRAY\s*\[\s*([^\]]+)\s*\]\s*\)` (when `doubleParen`)
or `=\s*ANY\s*\(\s*ARRAY\s*\[\s*([^\]]+)\s*\]\s*\)` (otherwise), returning
the capture between the bracket and the first closing bracket; as in
`matchINAt` the greedy leading `\s*` of the capture is folded into the
downstream `trim`.
-/
def matchANYAt (doubleParen : Bool) (l : List Char) : Option (List Char) := do
  let r ← expectChar '=' l
  let r := dropWs r
  let r ← matchLitCI "any".toList r
  let r := dropWs r
  let r ← expectChar '(' r
  let r := dropWs r
  let r ←
    if doubleParen then do
      let r ← expectChar '(' r
      pure (dropWs r)
    else
      pure r
  let r ← matchLitCI "array".toList r
  let r := dropWs r
  let r ← expectChar '[' r
  let inner := r.takeWhile (fun c => c ≠ ']')
  let rest := r.dropWhile (fun c => c ≠ ']')
  match rest with
  | ']' :: rest2 =>
    if inner.isEmpty then none
    else
      match dropWs rest2 with
      | ')' :: _ => some inner
      | _ => none
  | _ => none

/-- Scan left to right for the first position where `matchANYAt` succeeds. -/
def findANY (doubleParen : Bool) : List Char → Option (List Char)
  | [] => none
  | c :: cs =>
    match matchANYAt doubleParen (c :: cs) with
    | some cap => some cap
    | none => findANY doubleParen cs

/-- Word character of the regex class `\w`. -/
def isWordChar (c : Char) : Bool :=
  ('a' ≤ c && c ≤ 'z') || ('A' ≤ c && c ≤ 'Z') || ('0' ≤ c && c ≤ '9') || c = '_'

/--
One global-replace step for the regex `'::character\s+varying` (no
case-insensitive flag in the source): if the pattern matches at the head,
the remainder after the match.
-/
def matchCharVaryingAt (l : List Char) : Option (List Char) := do
  let r ← expectChar '\'' l
  let r ← expectChar ':' r
  let r ← expectChar ':' r
  let r ← matchLit "character".toList r
  let ws := r.takeWhile isWsChar
  let r := r.dropWhile isWsChar
  if ws.isEmpty then none
  else matchLit "varying".toList r

/--
One global-replace step for the regex `::[\w\s]+`: if the pattern matches at
the head, the remainder after the greedy match.
-/
def matchCastAt (l : List Char) : Option (List Char) := do
  let r ← expectChar ':' l
  let r ← expectChar ':' r
  let body := r.takeWhile (fun c => isWordChar c || isWsChar c)
  let rest := r.dropWhile (fun c => isWordChar c || isWsChar c)
  if body.isEmpty then none else some rest

/--
Global replace driver: at each position, delete the first pattern match and
continue after it, else keep the character.  `fuel` bounds the recursion
(the input length suffices: every step consumes at least one character).
-/
def replaceAllAux (step : List Char → Option (List Char)) : Nat → List Char → List Char
  | 0, l => l
  | _ + 1, [] => []
  | fuel + 1, c :: cs =>
    match step (c :: cs) with
    | some rest => replaceAllAux step fuel rest
    | none => c :: replaceAllAux step fuel cs

/-- JS `String.prototype.replace` with a global regex, via `replaceAllAux`. -/
def replaceAllStr (step : List Char → Option (List Char)) (s : String) : String :=
  String.mk (replaceAllAux step s.toList.length s.toList)

/--
The per-value mapping of the source's patterns 2 and 3: trim, strip one
quote from each edge, remove `'::character varying`, remove remaining
`::type` casts.
-/
def cleanANYValue (v : String) : String :=
  replaceAllStr matchCastAt
    (replaceAllStr matchCharVaryingAt (stripEdgeQuotes (jsTrim v)))

/-- The per-value mapping of the source's pattern 1: trim then strip edge quotes. -/
def cleanINValue (v : String) : String :=
  stripEdgeQuotes (jsTrim v)

/--
`extractConstraintValues(checkClause)` of the source: try the `IN (...)`
membership shape, then the double-parenthesised `= ANY ((ARRAY[...])` shape,
then the single-parenthesised `= ANY (ARRAY[...])` shape; split the capture
on commas, clean each value, drop empties; `none` when no shape matches.
-/
def extractConstraintValues (checkClause : String) : Option (List String) :=
  if checkClause = "" then none
  else
    match findIN checkClause.toList with
    | some cap =>
      some (((splitComma (String.mk cap)).map cleanINValue).filter
        (fun v => v.length > 0))
    | none =>
      match findANY true checkClause.toList with
      | some cap =>
        some (((splitComma (String.mk cap)).map cleanANYValue).filter
          (fun v => v.length > 0))
      | none =>
        match findANY false checkClause.toList with
        | some cap =>
          some (((splitComma (String.mk cap)).map cleanANYValue).filter
            (fun v => v.length > 0))
        | none => none

/--
`determineConstraintType(constraintValues, enumData, column)` of the source.
An `EnumRow`'s `enum_values` field is always an array in the source (so
always truthy, even when empty): the first guard reduces to the presence of
the enum row.
-/
def determineConstraintType (constraintValues : Option (List String))
    (enumData : Option EnumRow) (column : RawColumn) : String :=
  if enumData.isSome then "postgres_enum"
  else if (constraintValues.getD []).length > 0 then "check_constraint"
  else if column.data_type = "boolean" then "boolean"
  else "unknown"

/-- `calculateConfidence(constraintValues, enumData, column)` of the source. -/
def calculateConfidence (constraintValues : Option (List String))
    (enumData : Option EnumRow) (column : RawColumn) : Nat :=
  if enumData.isSome then 100
  else if (constraintValues.getD []).length > 0 then 95
  else if column.data_type = "boolean" then 100
  else 0

/-- `getConstraintDefault(constraintValues, enumData, column)` of the source. -/
def getConstraintDefault (constraintValues : Option (List String))
    (enumData : Option EnumRow) (column : RawColumn) : Option String :=
  match enumData with
  | some e =>
    match e.enum_values with
    | v :: _ => some v
    | [] =>
      match constraintValues with
      | some (v :: _) => some v
      | _ => if column.data_type = "boolean" then some "true" else none
  | none =>
    match constraintValues with
    | some (v :: _) => some v
    | _ => if column.data_type = "boolean" then some "true" else none

/-- `getConstraintSource(checkConstraint, enumData)` of the source. -/
def getConstraintSource (checkConstraint : Option CheckRow)
    (enumData : Option EnumRow) : String :=
  if enumData.isSome then "postgres_enum"
  else if checkConstraint.isSome then "check_constraint"
  else "inference"

/-- The ConstraintMetadata record built by `createConstraintMetadata`. -/
structure ConstraintMetadata where
  type : String
  confidence : Nat
  defaultValue : Option String
  source : String
  values : List String
  allowNull : Bool
  deriving DecidableEq

/--
`createConstraintMetadata(constraintValues, enumData, column)` of the
source.  Its `values` field is `constraintValues || enumData?.enum_values
|| []`: a present `constraintValues` array wins even when empty, since JS
arrays are truthy.
-/
def createConstraintMetadata (constraintValues : Option (List String))
    (enumData : Option EnumRow) (column : RawColumn) : ConstraintMetadata :=
  { type := determineConstraintType constraintValues enumData column,
    confidence := calculateConfidence constraintValues enumData column,
    defaultValue := getConstraintDefault constraintValues enumData column,
    source := getConstraintSource none enumData,
    values :=
      match constraintValues with
      | some vs => vs
      | none =>
        match enumData with
        | some e => e.enum_values
        | none => [],
    allowNull := column.is_nullable = "YES" }

/-- `mapPostgresToTypeScript(dataType, udtName)` of the source. -/
def tsTypeMap (key : String) : Option String :=
  if key = "integer" then some "number"
  else if key = "bigint" then some "number"
  else if key = "smallint" then some "number"
  else if key = "decimal" then some "number"
  else if key = "numeric" then some "number"
  else if key = "real" then some "number"
  else if key = "double precision" then some "number"
  else if key = "serial" then some "number"
  else if key = "bigserial" then some "number"
  else if key = "character varying" then some "string"
  else if key = "varchar" then some "string"
  else if key = "character" then some "string"
  else if key = "char" then some "string"
  else if key = "text" then some "string"
  else if key = "boolean" then some "boolean"
  else if key = "timestamp without time zone" then some "Date"
  else if key = "timestamp with time zone" then some "Date"
  else if key = "date" then some "Date"
  else if key = "time" then some "string"
  else if key = "json" then some "Record<string, any>"
  else if key = "jsonb" then some "Record<string, any>"
  else if key = "uuid" then some "string"
  else if key = "bytea" then some "Buffer"
  else if key = "array" then some "any[]"
  else none

/-- The substring-after-leading-underscore used for array element types. -/
def dropLeadingUnderscore (s : String) : String :=
  match s.toList with
  | '_' :: rest => String.mk rest
  | l => String.mk l

/-- `mapPostgresToTypeScript` of the source (arrays via a `_`-prefixed udt name). -/
def mapPostgresToTypeScript (dataType : String) (udtName : Option String) : String :=
  let udt := udtName.getD ""
  if udtName.isSome && startsWithUnderscore udt then
    let baseType := dropLeadingUnderscore udt
    ((tsTypeMap baseType).getD "any") ++ "[]"
  else
    match tsTypeMap dataType with
    | some t => t
    | none => (tsTypeMap udt).getD "any"

/-- The inner type table of `mapPostgresToTypeBox`. -/
def typeboxTypeMap (key : String) : Option String :=
  if key = "integer" then some "Type.Integer()"
  else if key = "bigint" then some "Type.Number()"
  else if key = "smallint" then some "Type.Integer()"
  else if key = "decimal" then some "Type.Number()"
  else if key = "numeric" then some "Type.Number()"
  else if key = "real" then some "Type.Number()"
  else if key = "double precision" then some "Type.Number()"
  else if key = "serial" then some "Type.Integer()"
  else if key = "bigserial" then some "Type.Number()"
  else if key = "character varying" then some "Type.String()"
  else if key = "varchar" then some "Type.String()"
  else if key = "character" then some "Type.String()"
  else if key = "char" then some "Type.String()"
  else if key = "text" then some "Type.String()"
  else if key = "boolean" then some "Type.Boolean()"
  else if key = "timestamp without time zone" then
    some "Type.String(\x7b format: \x22date-time\x22 \x7d)"
  else if key = "timestamp with time zone" then
    some "Type.String(\x7b format: \x22date-time\x22 \x7d)"
  else if key = "date" then some "Type.String(\x7b format: \x22date\x22 \x7d)"
  else if key = "time" then some "Type.String()"
  else if key = "json" then some "Type.Record(Type.String(), Type.Any())"
  else if key = "jsonb" then some "Type.Record(Type.String(), Type.Any())"
  else if key = "uuid" then some "Type.String(\x7b format: \x22uuid\x22 \x7d)"
  else if key = "bytea" then some "Type.String()"
  else if key = "array" then some "Type.Array(Type.Any())"
  else none

/-- `mapPostgresToTypeBox(dataType, udtName, isNullable)` of the source. -/
def mapPostgresToTypeBox (dataType : String) (udtName : Option String)
    (isNullable : Bool) : String :=
  let udt := udtName.getD ""
  let base :=
    match typeboxTypeMap dataType with
    | some t => t
    | none => (typeboxTypeMap udt).getD "Type.Any()"
  let arr :=
    if udtName.isSome && startsWithUnderscore udt then
      "Type.Array(" ++ ((typeboxTypeMap (dropLeadingUnderscore udt)).getD "Type.Any()") ++ ")"
    else base
  if isNullable then "Type.Optional(" ++ arr ++ ")" else arr

/-- Foreign-key info attached to a processed column. -/
structure ForeignKeyInfo where
  referencedTable : String := ""
  referencedColumn : String := ""
  constraintName : String := ""
  deriving DecidableEq

/-- Enum info attached to a processed column. -/
structure EnumInfo where
  typeName : String := ""
  values : List String := []
  deriving DecidableEq

/--
One element of `processedColumns` in `getDatabaseSchema`: the raw column
joined with key, enum, constraint and classification data.
-/
structure ProcessedColumn where
  name : String := ""
  type : String := ""
  udtName : Option String := none
  isNullable : Bool := false
  defaultValue : Option String := none
  maxLength : Option Nat := none
  precision : Option Nat := none
  scale : Option Nat := none
  isPrimaryKey : Bool := false
  isForeignKey : Bool := false
  foreignKeyInfo : Option ForeignKeyInfo := none
  isEnum : Bool := false
  enumInfo : Option EnumInfo := none
  constraintValues : Option (List String) := none
  constraintMetadata : ConstraintMetadata :=
    { type := "unknown", confidence := 0, defaultValue := none,
      source := "inference", values := [], allowNull := false }
  fieldType : String := ""
  filteringStrategy : FilteringStrategy := unknownStrategy
  tsType : String := ""
  typeboxType : String := ""
  deriving DecidableEq

/--
The per-column body of the `columns.rows.map` in `getDatabaseSchema`: find
this column's foreign-key, enum and check-constraint rows, extract the
constraint domain, build metadata, classify, and resolve the filtering
strategy.  `isEnum` is `!!enumData || !!constraintValues`: any present
constraint-value array counts, even an empty one.
-/
def processColumn (col : RawColumn) (pkRows : List String) (fkRows : List FKRow)
    (enumRows : List EnumRow) (checkRows : List CheckRow) : ProcessedColumn :=
  let isFK := fkRows.any (fun fk => fk.column_name = col.column_name)
  let fkInfo := fkRows.find? (fun fk => fk.column_name = col.column_name)
  let enumData := enumRows.find? (fun e => e.column_name = col.column_name)
  let checkConstraint := checkRows.find? (fun c => c.column_name = col.column_name)
  let constraintValues :=
    match checkConstraint with
    | some c => extractConstraintValues c.check_clause
    | none => none
  let constraintMetadata := createConstraintMetadata constraintValues enumData col
  let isEnumish := enumData.isSome || constraintValues.isSome
  let fieldType := determineFieldType col isFK isEnumish
  let filteringStrategy := getFieldFilteringStrategy col fieldType
  { name := col.column_name,
    type := col.data_type,
    udtName := col.udt_name,
    isNullable := col.is_nullable = "YES",
    defaultValue := col.column_default,
    maxLength := col.character_maximum_length,
    precision := col.numeric_precision,
    scale := col.numeric_scale,
    isPrimaryKey := pkRows.any (fun pk => pk = col.column_name),
    isForeignKey := isFK,
    foreignKeyInfo := fkInfo.map (fun fk =>
      { referencedTable := fk.foreign_table_name,
        referencedColumn := fk.foreign_column_name,
        constraintName := fk.constraint_name }),
    isEnum := isEnumish,
    enumInfo := enumData.map (fun e =>
      { typeName := e.enum_name, values := e.enum_values }),
    constraintValues := constraintValues,
    constraintMetadata := constraintMetadata,
    fieldType := fieldType,
    filteringStrategy := filteringStrategy,
    tsType := mapPostgresToTypeScript col.data_type col.udt_name,
    typeboxType := mapPostgresToTypeBox col.data_type col.udt_name
      (col.is_nullable = "YES") }

/-- One element of the `foreignKeys` summary list of a table schema. -/
structure FKEntry where
  column : String := ""
  referencedTable : String := ""
  referencedColumn : String := ""
  deriving DecidableEq

/-- The table schema object returned by `getDatabaseSchema`. -/
structure TableSchema where
  tableName : String := ""
  columns : List ProcessedColumn := []
  primaryKey : List String := []
  foreignKeys : List FKEntry := []
  deriving DecidableEq

/-- A row of the unique-constraint detection query. -/
structure UniqueRow where
  constraint_name : String := ""
  column_names : List String := []
  column_count : Nat := 0
  deriving DecidableEq

/-- A row of the inbound foreign-key-reference detection query. -/
structure FKRefRow where
  referencing_table : String := ""
  referencing_column : String := ""
  on_delete_rule : String := ""
  deriving DecidableEq

/--
The read-only catalog-access layer (knex): each metadata query is a
function of the table name that either yields rows or fails with an error
message, mirroring an async call that may reject.
-/
structure Catalog where
  hasTable : String → Except String Bool
  columnsQ : String → Except String (List RawColumn)
  primaryKeysQ : String → Except String (List String)
  foreignKeysQ : String → Except String (List FKRow)
  enumInfoQ : String → Except String (List EnumRow)
  checkConstraintsQ : String → Except String (List CheckRow)
  uniqueConstraintsQ : String → Except String (List UniqueRow)
  fkReferencesQ : String → Except String (List FKRefRow)

/--
`getDatabaseSchema(tableName)` of the source: return `none` when the table
does not exist; otherwise run the five metadata queries and join them per
column; any failure inside the `try` block is rethrown as
`Failed to get schema for table <name>: <message>`.
-/
def getDatabaseSchema (cat : Catalog) (tableName : String) :
    Except String (Option TableSchema) :=
  let body : Except String (Option TableSchema) := do
    let tableExists ← cat.hasTable tableName
    if !tableExists then
      pure none
    else do
      let columns ← cat.columnsQ tableName
      let primaryKeys ← cat.primaryKeysQ tableName
      let foreignKeys ← cat.foreignKeysQ tableName
      let enumInfo ← cat.enumInfoQ tableName
      let checkConstraints ← cat.checkConstraintsQ tableName
      pure (some
        { tableName := tableName,
          columns := columns.map
            (fun col => processColumn col primaryKeys foreignKeys enumInfo checkConstraints),
          primaryKey := primaryKeys,
          foreignKeys := foreignKeys.map (fun fk =>
            { column := fk.column_name,
              referencedTable := fk.foreign_table_name,
              referencedColumn := fk.foreign_column_name }) })
  match body with
  | Except.ok v => Except.ok v
  | Except.error msg =>
    Except.error ("Failed to get schema for table " ++ tableName ++ ": " ++ msg)

/-- `getDropdownEndpoint(foreignKeyInfo)` of the source. -/
def getDropdownEndpoint (foreignKeyInfo : Option ForeignKeyInfo) : Option String :=
  foreignKeyInfo.map (fun fk => "/" ++ fk.referencedTable ++ "/dropdown")

/--
`hasDropdownEndpoint(tableName)` of the source: read the table, look for a
conventional display column; any error (including read failure) yields
`false`.
-/
def hasDropdownEndpoint (cat : Catalog) (tableName : String) : Bool :=
  match getDatabaseSchema cat tableName with
  | Except.ok (some schema) =>
    schema.columns.any (fun col =>
      col.name ∈ ["name", "title", "first_name", "username", "email"])
  | Except.ok none => false
  | Except.error _ => false

/-- The priority display-field list of `getDropdownDisplayFields`. -/
def priorityFields : List String :=
  ["name", "title", "first_name", "username", "email", "description",
   "label", "display_name"]

/--
`getDropdownDisplayFields(referencedTableName, referencedSchema)` of the
source: keep the priority fields present in the referenced schema, else the
first non-`id` textual column; then `unshift` the literal `id` to the front
when absent; finally `slice(0, 3)`.
-/
def getDropdownDisplayFields (referencedTableName : String)
    (referencedSchema : Option TableSchema) : List String :=
  match referencedSchema with
  | none => ["id"]
  | some schema =>
    let availableFields := priorityFields.filter
      (fun field => schema.columns.any (fun col => col.name = field))
    let availableFields :=
      if availableFields.isEmpty then
        match schema.columns.find? (fun col =>
            col.name ≠ "id" ∧ col.type ∈ ["character varying", "varchar", "text"]) with
        | some firstStringField => [firstStringField.name]
        | none => []
      else availableFields
    let availableFields :=
      if "id" ∈ availableFields then availableFields else "id" :: availableFields
    availableFields.take 3

/-- The `dropdownInfo` record attached to enriched foreign-key columns. -/
structure DropdownInfo where
  endpoint : Option String := none
  hasEndpoint : Bool := false
  displayFields : List String := []
  referencedSchema : Option TableSchema := none
  deriving DecidableEq

/-- An enriched column: the processed column plus optional dropdown info. -/
structure EnhancedColumn where
  base : ProcessedColumn
  dropdownInfo : Option DropdownInfo := none
  deriving DecidableEq

/--
The per-column enrichment body of `getEnhancedSchema`: foreign-key columns
with FK info get dropdown info from reading the referenced table; a read
failure degrades to `hasEndpoint := false` and key-only display fields; all
other columns pass through.  A missing referenced table (`ok none`) is not
an error in the source: `displayFields` handles the null schema.
-/
def enrichColumn (cat : Catalog) (column : ProcessedColumn) : EnhancedColumn :=
  match column.isForeignKey, column.foreignKeyInfo with
  | true, some fkInfo =>
    let referencedTable := fkInfo.referencedTable
    match getDatabaseSchema cat referencedTable with
    | Except.ok referencedSchema =>
      { base := column,
        dropdownInfo := some
          { endpoint := getDropdownEndpoint column.foreignKeyInfo,
            hasEndpoint := hasDropdownEndpoint cat referencedTable,
            displayFields := getDropdownDisplayFields referencedTable referencedSchema,
            referencedSchema := referencedSchema } }
    | Except.error _ =>
      { base := column,
        dropdownInfo := some
          { endpoint := getDropdownEndpoint column.foreignKeyInfo,
            hasEndpoint := false,
            displayFields := ["id"],
            referencedSchema := none } }
  | _, _ => { base := column, dropdownInfo := none }

/-- The unique-constraint summary returned by `detectUniqueConstraints`. -/
structure UniqueConstraints where
  singleField : List String := []
  composite : List (List String) := []
  deriving DecidableEq

/--
`detectUniqueConstraints(tableName)` of the source: split the rows of the
unique-constraint query into single-field and composite constraints by
column count; any query failure is caught and yields the empty summary.
(The source also normalises a PostgreSQL brace-delimited string of column
names into an array; rows here carry the parsed list directly.)
-/
def detectUniqueConstraints (cat : Catalog) (tableName : String) : UniqueConstraints :=
  match cat.uniqueConstraintsQ tableName with
  | Except.error _ => { singleField := [], composite := [] }
  | Except.ok rows =>
    rows.foldl
      (fun acc constraint =>
        let columns := constraint.column_names
        if constraint.column_count = 1 then
          { acc with singleField := acc.singleField ++ [columns.headD ""] }
        else if constraint.column_count > 1 then
          { acc with composite := acc.composite ++ [columns] }
        else acc)
      { singleField := [], composite := [] }

/-- One element of the foreign-key-reference summary. -/
structure FKReference where
  table : String := ""
  field : String := ""
  cascade : Bool := false
  deleteRule : String := ""
  deriving DecidableEq

/--
`detectForeignKeyReferences(tableName)` of the source: map the rows of the
inbound-reference query; any query failure is caught and yields `[]`.
-/
def detectForeignKeyReferences (cat : Catalog) (tableName : String) : List FKReference :=
  match cat.fkReferencesQ tableName with
  | Except.error _ => []
  | Except.ok rows =>
    rows.map (fun ref =>
      { table := ref.referencing_table,
        field := ref.referencing_column,
        cascade := ref.on_delete_rule = "CASCADE",
        deleteRule := ref.on_delete_rule })

/-- A business rule derived by `detectBusinessRules`. -/
structure BusinessRule where
  field : String := ""
  ruleType : String := ""
  message : String := ""
  errorCode : String := ""
  deriving DecidableEq

/-- The rules the `detectBusinessRules` loop emits for one column, in order. -/
def businessRulesForColumn (column : ProcessedColumn) : List BusinessRule :=
  let colName := jsToLower column.name
  let dataType := jsToLower column.type
  let tsType := column.tsType
  (if (strContains dataType "date" || tsType = "Date") &&
      (strContains colName "birth" || strContains colName "dob" ||
       strContains colName "born") then
    [{ field := column.name, ruleType := "date_not_future",
       message := column.name ++ " cannot be in the future",
       errorCode := "INVALID_DATE" }]
  else []) ++
  (if tsType = "number" &&
      (strContains colName "price" || strContains colName "cost" ||
       strContains colName "amount" || strContains colName "quantity" ||
       strContains colName "count") then
    [{ field := column.name, ruleType := "positive_number",
       message := column.name ++ " must be a positive number",
       errorCode := "INVALID_VALUE" }]
  else []) ++
  (if strContains colName "email" || strContains colName "e_mail" ||
      colName = "mail" then
    [{ field := column.name, ruleType := "email_format",
       message := column.name ++ " must be a valid email address",
       errorCode := "INVALID_EMAIL" }]
  else []) ++
  (if strContains colName "url" || strContains colName "website" ||
      strContains colName "link" then
    [{ field := column.name, ruleType := "url_format",
       message := column.name ++ " must be a valid URL",
       errorCode := "INVALID_URL" }]
  else []) ++
  (if strContains colName "phone" || strContains colName "tel" ||
      strContains colName "mobile" then
    [{ field := column.name, ruleType := "phone_format",
       message := column.name ++ " must be a valid phone number",
       errorCode := "INVALID_PHONE" }]
  else [])

/-- `detectBusinessRules(columns)` of the source: per-column rules in column order. -/
def detectBusinessRules (columns : List ProcessedColumn) : List BusinessRule :=
  columns.flatMap businessRulesForColumn

/--
The schema slice consumed by `generateErrorCodes`; the source guards each
part with a truthiness check, so each is optional here.
-/
structure SchemaForCodes where
  uniqueConstraints : Option UniqueConstraints := none
  foreignKeyReferences : Option (List FKReference) := none
  businessRules : Option (List BusinessRule) := none

/--
`generateErrorCodes(tableName, schema)` of the source, as the ordered list
of key/value assignments made to the error-code object: the two base codes,
one `DUPLICATE_<FIELD>` per single-field unique constraint, one
`DUPLICATE_<FIELDS_JOINED>` per composite constraint, the blanket and
per-table `CANNOT_DELETE` codes when inbound references exist, and one
`<RULE_CODE>_<FIELD>` per business rule.  (In JS a repeated key collapses
into one object entry, keeping the last value.)
-/
def generateErrorCodes (tableName : String) (schema : SchemaForCodes) :
    List (String × String) :=
  let upperName := jsToUpper tableName
  let base :=
    [("NOT_FOUND", upperName ++ "_NOT_FOUND"),
     ("VALIDATION_ERROR", upperName ++ "_VALIDATION_ERROR")]
  let dup :=
    match schema.uniqueConstraints with
    | none => []
    | some uc =>
      (uc.singleField.map (fun field =>
        let fieldUpper := jsToUpper field
        ("DUPLICATE_" ++ fieldUpper, upperName ++ "_DUPLICATE_" ++ fieldUpper))) ++
      (uc.composite.map (fun fields =>
        let fieldsUpper := joinUnderscore (fields.map jsToUpper)
        ("DUPLICATE_" ++ fieldsUpper, upperName ++ "_DUPLICATE_" ++ fieldsUpper)))
  let del :=
    match schema.foreignKeyReferences with
    | none => []
    | some refs =>
      if refs.length > 0 then
        ("CANNOT_DELETE_HAS_REFERENCES", upperName ++ "_CANNOT_DELETE_HAS_REFERENCES") ::
        refs.map (fun ref =>
          let refTableUpper := jsToUpper ref.table
          ("CANNOT_DELETE_HAS_" ++ refTableUpper,
           upperName ++ "_CANNOT_DELETE_HAS_" ++ refTableUpper))
      else []
  let biz :=
    match schema.businessRules with
    | none => []
    | some rules =>
      if rules.length > 0 then
        rules.map (fun rule =>
          let fieldUpper := jsToUpper rule.field
          (rule.errorCode ++ "_" ++ fieldUpper,
           upperName ++ "_" ++ rule.errorCode ++ "_" ++ fieldUpper))
      else []
  base ++ dup ++ del ++ biz

/-- The `capabilities` summary computed by `getEnhancedSchema`. -/
structure Capabilities where
  hasAuditFields : Bool := false
  hasUserAuditFields : Bool := false
  hasForeignKeys : Bool := false
  hasEnums : Bool := false
  foreignKeyCount : Nat := 0
  enumCount : Nat := 0
  dropdownFields : List EnhancedColumn := []
  selectFields : List EnhancedColumn := []
  deriving DecidableEq

/--
The enriched schema returned by `getEnhancedSchema`.  (The source also
stamps an `enhancedMetadata.analyzedAt` wall-clock timestamp, which has no
counterpart in this embedding.)
-/
structure EnhancedSchema where
  tableName : String := ""
  columns : List EnhancedColumn := []
  primaryKey : List String := []
  foreignKeys : List FKEntry := []
  uniqueConstraints : UniqueConstraints := {}
  foreignKeyReferences : List FKReference := []
  businessRules : List BusinessRule := []
  errorCodes : List (String × String) := []
  capabilities : Capabilities := {}
  deriving DecidableEq

/--
`getEnhancedSchema(tableName)` of the source: read the base schema — a
missing table raises `Table <name> not found` — then detect unique
constraints, inbound references and business rules, generate error codes,
enrich the foreign-key columns, and summarise capabilities; any error in
the body is rethrown as
`Failed to get enhanced schema for table <name>: <message>`.
-/
def getEnhancedSchema (cat : Catalog) (tableName : String) :
    Except String EnhancedSchema :=
  let body : Except String EnhancedSchema := do
    let schemaOpt ← getDatabaseSchema cat tableName
    match schemaOpt with
    | none => Except.error ("Table " ++ tableName ++ " not found")
    | some schema => do
      let uniqueConstraints := detectUniqueConstraints cat tableName
      let foreignKeyReferences := detectForeignKeyReferences cat tableName
      let businessRules := detectBusinessRules schema.columns
      let errorCodes := generateErrorCodes tableName
        { uniqueConstraints := some uniqueConstraints,
          foreignKeyReferences := some foreignKeyReferences,
          businessRules := some businessRules }
      let enhancedColumns := schema.columns.map (enrichColumn cat)
      let capabilities : Capabilities :=
        { hasAuditFields := enhancedColumns.any
            (fun col => col.base.fieldType = "audit-timestamp"),
          hasUserAuditFields := enhancedColumns.any
            (fun col => col.base.fieldType = "audit-user"),
          hasForeignKeys := enhancedColumns.any (fun col => col.base.isForeignKey),
          hasEnums := enhancedColumns.any (fun col => col.base.isEnum),
          foreignKeyCount :=
            (enhancedColumns.filter (fun col => col.base.isForeignKey)).length,
          enumCount := (enhancedColumns.filter (fun col => col.base.isEnum)).length,
          dropdownFields := enhancedColumns.filter
            (fun col => col.base.fieldType = "foreign-key-dropdown"),
          selectFields := enhancedColumns.filter
            (fun col => col.base.fieldType = "enum-select") }
      pure
        { tableName := schema.tableName,
          columns := enhancedColumns,
          primaryKey := schema.primaryKey,
          foreignKeys := schema.foreignKeys,
          uniqueConstraints := uniqueConstraints,
          foreignKeyReferences := foreignKeyReferences,
          businessRules := businessRules,
          errorCodes := errorCodes,
          capabilities := capabilities }
  match body with
  | Except.ok v => Except.ok v
  | Except.error msg =>
    Except.error ("Failed to get enhanced schema for table " ++ tableName ++ ": " ++ msg)

/-! ## Concrete fixtures used by the theorems below -/

/-- A foreign-key column named `id` (e.g. a shared-primary-key FK). -/
def idFkCol : RawColumn :=
  { column_name := "id", data_type := "uuid", udt_name := some "uuid" }

/-- A foreign-key column named `author_id`. -/
def authorIdCol : RawColumn :=
  { column_name := "author_id", data_type := "uuid", udt_name := some "uuid" }

/-- A long-text column (`text` catalog type). -/
def bioCol : RawColumn :=
  { column_name := "bio", data_type := "text", udt_name := some "text" }

/-- A plain varchar `status` column. -/
def statusCol : RawColumn :=
  { column_name := "status", data_type := "character varying", udt_name := some "varchar" }

/-- A boolean column with neither enum nor check-constraint domain. -/
def boolCol : RawColumn :=
  { column_name := "is_active", data_type := "boolean", udt_name := some "bool" }

/-- A check-constraint row whose IN-list holds only an empty literal. -/
def statusCheckRow : CheckRow :=
  { column_name := "status", check_clause := "status IN ('')" }

/-! ## C1 — foreign-key columns and the classifier's name checks -/

/--
C1 counterexample: the claim says every foreign-key column classifies as
`foreign-key-dropdown`, in particular one named `id`; but
`determineFieldType` checks the name `id` before the foreign-key flag, so a
foreign-key column named `id` classifies as `primary-key`.
-/
theorem c1_counterexample :
    determineFieldType idFkCol true false = "primary-key" ∧
    determineFieldType idFkCol true false ≠ "foreign-key-dropdown" := by
  constructor
  · rfl
  · decide

/--
C1 (amended): for every column flagged as a foreign key whose lower-cased
name is not `id` and not one of the six audit names, `determineFieldType`
returns `foreign-key-dropdown` regardless of any other column attribute;
the name checks for `id`, `created_at`, `updated_at`, `deleted_at`,
`created_by`, `updated_by`, `deleted_by` take precedence over the
foreign-key flag.
-/
theorem c1_fk_dropdown (col : RawColumn) (isEnum : Bool)
    (h : jsToLower col.column_name ∉
      ["id", "created_at", "updated_at", "deleted_at",
       "created_by", "updated_by", "deleted_by"]) :
    determineFieldType col true isEnum = "foreign-key-dropdown" := by
  simp only [List.mem_cons, List.not_mem_nil, or_false, not_or] at h
  obtain ⟨h1, h2, h3, h4, h5, h6, h7⟩ := h
  unfold determineFieldType
  simp [h1, h2, h3, h4, h5, h6, h7]

/-- C1 witness: `author_id` as a foreign key classifies as `foreign-key-dropdown`. -/
theorem c1_witness :
    determineFieldType authorIdCol true false = "foreign-key-dropdown" :=
  c1_fk_dropdown authorIdCol false (by decide)

/-! ## C5 — the three specified constraint-extraction pairs -/

/--
C5 counterexample: on the single-parenthesised form
`status = ANY (ARRAY['a','b']::character varying[])` the claim requires
`["a","b"]`, but none of the three source patterns matches — the
double-parenthesis pattern needs a second opening parenthesis before
`ARRAY`, and the simple pattern requires a closing parenthesis directly
after the bracket, which the trailing type cast breaks — so the extractor
returns `none`.
-/
theorem c5_counterexample :
    extractConstraintValues "status = ANY (ARRAY['a','b']::character varying[])" = none ∧
    extractConstraintValues "status = ANY (ARRAY['a','b']::character varying[])" ≠
      some ["a", "b"] := by
  constructor
  · rfl
  · decide

/--
C5 (amended): `extractConstraintValues` satisfies the first and third
specified pairs — `status IN ('draft', 'published')` yields
`["draft","published"]` and `x > 5` yields `none` — while the `= ANY`
example extracts `["a","b"]` only in its double-parenthesised PostgreSQL
form `status = ANY ((ARRAY['a','b'])::character varying[])`; the
single-parenthesised form of the claim yields `none`.
-/
theorem c5_extract_domain_pairs :
    extractConstraintValues "status IN ('draft', 'published')" =
      some ["draft", "published"] ∧
    extractConstraintValues "status = ANY ((ARRAY['a','b'])::character varying[])" =
      some ["a", "b"] ∧
    extractConstraintValues "x > 5" = none ∧
    extractConstraintValues "status = ANY (ARRAY['a','b']::character varying[])" = none := by
  refine ⟨?_, ?_, ?_, ?_⟩ <;> rfl

/-! ## C6 — when the `values` list of constraint metadata is empty -/

/--
C6 counterexample: the claim says `values` is empty only for kind
`unknown`; but a boolean column with neither an enum row nor parsed
constraint values gets kind `boolean` with an empty `values` list.
-/
theorem c6_counterexample :
    (createConstraintMetadata none none boolCol).type = "boolean" ∧
    (createConstraintMetadata none none boolCol).values = [] := by
  exact ⟨rfl, rfl⟩

/--
C6 (amended): `values` is non-empty whenever the kind is
`check_constraint`, and whenever the kind is `postgres_enum` provided the
parsed constraint list is not present-but-empty and the declared
enumeration list is non-empty; for kind `boolean` (a boolean column with
neither source of values) the list is empty.
-/
theorem c6_values_nonempty (cv : Option (List String)) (ed : Option EnumRow)
    (col : RawColumn)
    (hcv : cv ≠ some ([] : List String))
    (hed : ∀ e, ed = some e → e.enum_values ≠ [])
    (hkind : (createConstraintMetadata cv ed col).type = "check_constraint" ∨
             (createConstraintMetadata cv ed col).type = "postgres_enum") :
    (createConstraintMetadata cv ed col).values ≠ [] := by
  cases cv with
  | some vs =>
    intro hnil
    have hvs : (createConstraintMetadata (some vs) ed col).values = vs := by
      cases ed <;> rfl
    rw [hvs] at hnil
    exact hcv (by rw [hnil])
  | none =>
    cases ed with
    | some e =>
      have hvs : (createConstraintMetadata none (some e) col).values = e.enum_values := rfl
      rw [hvs]
      exact hed e rfl
    | none =>
      exfalso
      have ht : (createConstraintMetadata none none col).type =
          (if col.data_type = "boolean" then "boolean" else "unknown") := by
        simp [createConstraintMetadata, determineConstraintType]
      rw [ht] at hkind
      rcases hkind with hk | hk <;> split_ifs at hk <;> simp_all

/-- C6 witness: a parsed two-value check constraint yields a non-empty `values` list. -/
theorem c6_witness :
    (createConstraintMetadata (some ["draft", "published"]) none statusCol).values ≠ [] :=
  c6_values_nonempty (some ["draft", "published"]) none statusCol
    (by decide) (fun e he => Option.noConfusion he) (Or.inl rfl)

/-! ## C9 — enum metadata with a simultaneously parsed check constraint -/

/--
C9: when a column has both a declared enumeration row and parsed
check-constraint values, the metadata reports kind `postgres_enum` with
confidence 100, but its `values` list is the parsed check-constraint list,
not the declared enumeration's value list.
-/
theorem c9_check_values_win (col : RawColumn) (e : EnumRow) (vs : List String)
    (hne : vs ≠ e.enum_values) :
    (createConstraintMetadata (some vs) (some e) col).type = "postgres_enum" ∧
    (createConstraintMetadata (some vs) (some e) col).confidence = 100 ∧
    (createConstraintMetadata (some vs) (some e) col).values = vs ∧
    (createConstraintMetadata (some vs) (some e) col).values ≠ e.enum_values := by
  exact ⟨rfl, rfl, rfl, fun hv => hne hv⟩

/--
C9 witness: with declared enumeration `["p","q"]` and parsed constraint
list `["x","y"]`, the metadata is `postgres_enum` at confidence 100 but
carries `["x","y"]`.
-/
theorem c9_witness :
    (createConstraintMetadata (some ["x", "y"])
        (some { column_name := "status", enum_name := "status_enum",
                enum_values := ["p", "q"] }) statusCol).type = "postgres_enum" ∧
    (createConstraintMetadata (some ["x", "y"])
        (some { column_name := "status", enum_name := "status_enum",
                enum_values := ["p", "q"] }) statusCol).confidence = 100 ∧
    (createConstraintMetadata (some ["x", "y"])
        (some { column_name := "status", enum_name := "status_enum",
                enum_values := ["p", "q"] }) statusCol).values = ["x", "y"] ∧
    (createConstraintMetadata (some ["x", "y"])
        (some { column_name := "status", enum_name := "status_enum",
                enum_values := ["p", "q"] }) statusCol).values ≠ ["p", "q"] :=
  c9_check_values_win statusCol
    { column_name := "status", enum_name := "status_enum", enum_values := ["p", "q"] }
    ["x", "y"] (by decide)

/-! ## C10 — the all-empty IN-list produces an empty (not null) domain -/

/--
C10: on the check clause `status IN ('')` — the IN-list shape with only an
empty quoted literal — `extractConstraintValues` returns the empty list
rather than `none`; the column-processing pipeline then treats the column
as enum-ish and classifies it `enum-select`, even though its constraint
metadata has kind `unknown` and confidence 0.
-/
theorem c10_empty_in_list :
    extractConstraintValues "status IN ('')" = some [] ∧
    (processColumn statusCol [] [] [] [statusCheckRow]).fieldType = "enum-select" ∧
    (processColumn statusCol [] [] [] [statusCheckRow]).constraintMetadata.type = "unknown" ∧
    (processColumn statusCol [] [] [] [statusCheckRow]).constraintMetadata.confidence = 0 := by
  exact ⟨rfl, rfl, rfl, rfl⟩

/-! ## C2 — totality of the filtering-strategy resolver -/

/--
Every strategy stored under a key of the semantic-kind table has a
non-empty filter list, and contains `equals` unless it is the textarea
strategy.
-/
theorem ffs_entry_ok (key : String) (s : FilteringStrategy)
    (h : FIELD_FILTERING_STRATEGIES key = some s) :
    s.filters ≠ [] ∧ ("equals" ∈ s.filters ∨ s = textareaStrategy) := by
  unfold FIELD_FILTERING_STRATEGIES at h
  rcases Option.map_eq_some'.mp h with ⟨p, hp, rfl⟩
  have hmem := List.mem_of_find?_eq_some hp
  have hall : ∀ q ∈ FIELD_FILTERING_STRATEGIES_TABLE,
      q.2.filters ≠ [] ∧ ("equals" ∈ q.2.filters ∨ q.2 = textareaStrategy) := by
    decide
  exact hall p hmem

/--
C2 counterexample: the claim says every resolved strategy contains
`equals`, in particular for the `textarea` kind; but the textarea entry of
the strategy table carries only `contains` and `fulltext`.
-/
theorem c2_counterexample :
    getFieldFilteringStrategy bioCol "textarea" = textareaStrategy ∧
    "equals" ∉ (getFieldFilteringStrategy bioCol "textarea").filters := by
  exact ⟨rfl, by decide⟩

/--
C2 (amended): `getFieldFilteringStrategy` is total and pure — for every
(column, fieldKind) input, including an unrecognized fieldKind, it returns
a strategy with a non-empty predicate set, and that set contains `equals`
except when the resolved strategy is the textarea one (whose predicates are
`contains` and `fulltext`).
-/
theorem c2_total_resolver (col : RawColumn) (fieldType : String) :
    (getFieldFilteringStrategy col fieldType).filters ≠ [] ∧
    ("equals" ∈ (getFieldFilteringStrategy col fieldType).filters ∨
      getFieldFilteringStrategy col fieldType = textareaStrategy) := by
  simp only [getFieldFilteringStrategy]
  cases hks : FIELD_FILTERING_STRATEGIES fieldType with
  | some s =>
    simp only [hks]
    exact ffs_entry_ok fieldType s hks
  | none =>
    simp only [hks]
    split
    next s heq =>
      obtain ⟨t, _, hfs⟩ := Option.bind_eq_some.mp heq
      exact ffs_entry_ok t s hfs
    next heq =>
      split_ifs <;> decide

/-! ## C3 — NotFound signalling for missing tables -/

/-- A catalog in which no table exists and every query succeeds trivially. -/
def emptyCatalog : Catalog :=
  { hasTable := fun _ => Except.ok false,
    columnsQ := fun _ => Except.ok [],
    primaryKeysQ := fun _ => Except.ok [],
    foreignKeysQ := fun _ => Except.ok [],
    enumInfoQ := fun _ => Except.ok [],
    checkConstraintsQ := fun _ => Except.ok [],
    uniqueConstraintsQ := fun _ => Except.ok [],
    fkReferencesQ := fun _ => Except.ok [] }

/--
C3 counterexample: the claim says `getEnhancedSchema` also signals a
missing table by a null result rather than an exception; but on a missing
table it raises `Failed to get enhanced schema for table <name>: Table
<name> not found`.
-/
theorem c3_counterexample :
    getEnhancedSchema emptyCatalog "missing" =
      Except.error
        "Failed to get enhanced schema for table missing: Table missing not found" := by
  rfl

/--
C3 (amended): for every table name that does not exist in the catalog, the
Catalog Reader `getDatabaseSchema` returns a null result rather than
raising; the Schema Assembler `getEnhancedSchema`, by contrast, converts
the missing table into an error mentioning the table name.
-/
theorem c3_missing_table (cat : Catalog) (t : String)
    (h : cat.hasTable t = Except.ok false) :
    getDatabaseSchema cat t = Except.ok none ∧
    getEnhancedSchema cat t =
      Except.error ("Failed to get enhanced schema for table " ++ t ++ ": " ++
        ("Table " ++ t ++ " not found")) := by
  have hdb : getDatabaseSchema cat t = Except.ok none := by
    unfold getDatabaseSchema
    rw [h]
    rfl
  refine ⟨hdb, ?_⟩
  unfold getEnhancedSchema
  rw [hdb]
  rfl

/-- C3 witness: the empty catalog has no `missing` table; both behaviours follow. -/
theorem c3_witness :
    getDatabaseSchema emptyCatalog "missing" = Except.ok none ∧
    getEnhancedSchema emptyCatalog "missing" =
      Except.error ("Failed to get enhanced schema for table " ++ "missing" ++ ": " ++
        ("Table " ++ "missing" ++ " not found")) :=
  c3_missing_table emptyCatalog "missing" rfl

/-! ## C4 — which metadata query failures are fatal -/

/-- Does an enhanced-schema computation succeed? -/
def exceptIsOk (e : Except String EnhancedSchema) : Bool :=
  match e with
  | Except.ok _ => true
  | Except.error _ => false

/--
A catalog whose unique-constraint and inbound-reference queries fail while
all Catalog Reader queries succeed.
-/
def failCatalog : Catalog :=
  { hasTable := fun _ => Except.ok true,
    columnsQ := fun _ => Except.ok [],
    primaryKeysQ := fun _ => Except.ok [],
    foreignKeysQ := fun _ => Except.ok [],
    enumInfoQ := fun _ => Except.ok [],
    checkConstraintsQ := fun _ => Except.ok [],
    uniqueConstraintsQ := fun _ => Except.error "boom",
    fkReferencesQ := fun _ => Except.error "boom" }

/-- A catalog whose column-list query fails. -/
def fatalCatalog : Catalog :=
  { hasTable := fun _ => Except.ok true,
    columnsQ := fun _ => Except.error "boom",
    primaryKeysQ := fun _ => Except.ok [],
    foreignKeysQ := fun _ => Except.ok [],
    enumInfoQ := fun _ => Except.ok [],
    checkConstraintsQ := fun _ => Except.ok [],
    uniqueConstraintsQ := fun _ => Except.ok [],
    fkReferencesQ := fun _ => Except.ok [] }

/--
C4 counterexample: the claim says no metadata query failure issued during a
table's classification is silently converted into an empty result; but
with failing unique-constraint and inbound-reference queries the whole
classification still succeeds, and both detections return empty results.
-/
theorem c4_counterexample :
    exceptIsOk (getEnhancedSchema failCatalog "users") = true ∧
    detectUniqueConstraints failCatalog "users" =
      { singleField := [], composite := [] } ∧
    detectForeignKeyReferences failCatalog "users" = [] := by
  exact ⟨rfl, rfl, rfl⟩

/--
C4 (amended): a failure of any of the six Catalog Reader queries — the
existence check, the column list, the primary keys, the foreign keys, the
enumerations or the check constraints — is fatal and propagated as
`Failed to get schema for table <name>: <message>`; a failure of the
unique-constraint query or of the inbound foreign-key-reference query,
however, is swallowed into an empty result.
-/
theorem c4_fatal_vs_swallowed :
    (∀ (cat : Catalog) (t msg : String), cat.hasTable t = Except.error msg →
      getDatabaseSchema cat t =
        Except.error ("Failed to get schema for table " ++ t ++ ": " ++ msg)) ∧
    (∀ (cat : Catalog) (t msg : String), cat.hasTable t = Except.ok true →
      cat.columnsQ t = Except.error msg →
      getDatabaseSchema cat t =
        Except.error ("Failed to get schema for table " ++ t ++ ": " ++ msg)) ∧
    (∀ (cat : Catalog) (t msg : String) (cols : List RawColumn),
      cat.hasTable t = Except.ok true → cat.columnsQ t = Except.ok cols →
      cat.primaryKeysQ t = Except.error msg →
      getDatabaseSchema cat t =
        Except.error ("Failed to get schema for table " ++ t ++ ": " ++ msg)) ∧
    (∀ (cat : Catalog) (t msg : String) (cols : List RawColumn)
       (pks : List String),
      cat.hasTable t = Except.ok true → cat.columnsQ t = Except.ok cols →
      cat.primaryKeysQ t = Except.ok pks → cat.foreignKeysQ t = Except.error msg →
      getDatabaseSchema cat t =
        Except.error ("Failed to get schema for table " ++ t ++ ": " ++ msg)) ∧
    (∀ (cat : Catalog) (t msg : String) (cols : List RawColumn)
       (pks : List String) (fks : List FKRow),
      cat.hasTable t = Except.ok true → cat.columnsQ t = Except.ok cols →
      cat.primaryKeysQ t = Except.ok pks → cat.foreignKeysQ t = Except.ok fks →
      cat.enumInfoQ t = Except.error msg →
      getDatabaseSchema cat t =
        Except.error ("Failed to get schema for table " ++ t ++ ": " ++ msg)) ∧
    (∀ (cat : Catalog) (t msg : String) (cols : List RawColumn)
       (pks : List String) (fks : List FKRow) (enums : List EnumRow),
      cat.hasTable t = Except.ok true → cat.columnsQ t = Except.ok cols →
      cat.primaryKeysQ t = Except.ok pks → cat.foreignKeysQ t = Except.ok fks →
      cat.enumInfoQ t = Except.ok enums → cat.checkConstraintsQ t = Except.error msg →
      getDatabaseSchema cat t =
        Except.error ("Failed to get schema for table " ++ t ++ ": " ++ msg)) ∧
    (∀ (cat : Catalog) (t msg : String), cat.uniqueConstraintsQ t = Except.error msg →
      detectUniqueConstraints cat t = { singleField := [], composite := [] }) ∧
    (∀ (cat : Catalog) (t msg : String), cat.fkReferencesQ t = Except.error msg →
      detectForeignKeyReferences cat t = []) := by
  refine ⟨?_, ?_, ?_, ?_, ?_, ?_, ?_, ?_⟩
  · intro cat t msg h
    unfold getDatabaseSchema
    rw [h]
    rfl
  · intro cat t msg h1 h2
    unfold getDatabaseSchema
    rw [h1, h2]
    rfl
  · intro cat t msg cols h1 h2 h3
    unfold getDatabaseSchema
    rw [h1, h2, h3]
    rfl
  · intro cat t msg cols pks h1 h2 h3 h4
    unfold getDatabaseSchema
    rw [h1, h2, h3, h4]
    rfl
  · intro cat t msg cols pks fks h1 h2 h3 h4 h5
    unfold getDatabaseSchema
    rw [h1, h2, h3, h4, h5]
    rfl
  · intro cat t msg cols pks fks enums h1 h2 h3 h4 h5 h6
    unfold getDatabaseSchema
    rw [h1, h2, h3, h4, h5, h6]
    rfl
  · intro cat t msg h
    unfold detectUniqueConstraints
    rw [h]
  · intro cat t msg h
    unfold detectForeignKeyReferences
    rw [h]

/-- C4 witness: a failing column query is fatal; a failing unique query is swallowed. -/
theorem c4_witness :
    getDatabaseSchema fatalCatalog "users" =
      Except.error ("Failed to get schema for table " ++ "users" ++ ": " ++ "boom") ∧
    detectUniqueConstraints failCatalog "users" =
      { singleField := [], composite := [] } :=
  ⟨c4_fatal_vs_swallowed.2.1 fatalCatalog "users" "boom" rfl rfl,
   c4_fatal_vs_swallowed.2.2.2.2.2.2.1 failCatalog "users" "boom" rfl⟩

/-! ## C7 — error-code map entries and key uniqueness -/

/-- The example schema of the claim: unique `email` and `username`, inbound `orders`. -/
def c7schema : SchemaForCodes :=
  { uniqueConstraints := some { singleField := ["email", "username"], composite := [] },
    foreignKeyReferences :=
      some [{ table := "orders", field := "user_id", cascade := false,
              deleteRule := "RESTRICT" }],
    businessRules := some [] }

/-- A schema whose single-field constraint `a_b` and composite constraint `(a,b)` collide. -/
def collideSchema : SchemaForCodes :=
  { uniqueConstraints := some { singleField := ["a_b"], composite := [["a", "b"]] },
    foreignKeyReferences := some [],
    businessRules := some [] }

/--
C7 counterexample: the claim requires all keys unique for every table; but
a single-field unique constraint `a_b` and a composite unique constraint
`(a, b)` both produce the key `DUPLICATE_A_B`, so the generated key list is
not duplicate-free.
-/
theorem c7_counterexample :
    ¬ List.Nodup ((generateErrorCodes "t" collideSchema).map Prod.fst) := by
  decide

/--
C7 (amended): `generateErrorCodes` emits exactly one assignment per
single-field unique constraint, one per composite unique constraint, one
per inbound reference (plus the two base codes and, when references exist,
one blanket delete code), and on the claim's example — unique `email` and
`username` plus an inbound foreign key from `orders` — the keys are exactly
the expected six, pairwise distinct; key uniqueness in general, however,
only holds when distinct constraints do not up-case and join to the same
identifier.
-/
theorem c7_entry_counts_and_example :
    (∀ (n : String) (sf : List String) (comp : List (List String))
       (refs : List FKReference) (rules : List BusinessRule),
      (generateErrorCodes n
        { uniqueConstraints := some { singleField := sf, composite := comp },
          foreignKeyReferences := some refs,
          businessRules := some rules }).length =
        2 + sf.length + comp.length +
          (if refs.length > 0 then 1 + refs.length else 0) + rules.length) ∧
    (generateErrorCodes "users" c7schema).map Prod.fst =
      ["NOT_FOUND", "VALIDATION_ERROR", "DUPLICATE_EMAIL", "DUPLICATE_USERNAME",
       "CANNOT_DELETE_HAS_REFERENCES", "CANNOT_DELETE_HAS_ORDERS"] ∧
    List.Nodup ((generateErrorCodes "users" c7schema).map Prod.fst) := by
  refine ⟨?_, by decide, by decide⟩
  intro n sf comp refs rules
  simp only [generateErrorCodes]
  split_ifs <;>
    simp only [List.length_append, List.length_map, List.length_cons,
      List.length_nil] <;>
    omega

/-! ## C8 — display-field ordering for foreign-key dropdowns -/

/-- The referenced `authors` table of the claim's example (processed form). -/
def authorsSchema : TableSchema :=
  { tableName := "authors",
    columns := [{ name := "id", type := "uuid" },
                { name := "name", type := "character varying" }],
    primaryKey := ["id"],
    foreignKeys := [] }

/--
C8 counterexample: the claim says `name` is placed ahead of the key column,
which is appended only as a fallback; but the source `unshift`s the key to
the front, so for `authors(id, name)` the display fields are `["id",
"name"]`, with the key first.
-/
theorem c8_counterexample :
    getDropdownDisplayFields "authors" (some authorsSchema) = ["id", "name"] ∧
    getDropdownDisplayFields "authors" (some authorsSchema) ≠ ["name", "id"] := by
  exact ⟨rfl, by decide⟩

/--
C8 (amended): for every referenced schema containing a column named `name`,
the display fields select `name` from the priority list, but the key
column `id` is prepended — not appended — as the guaranteed fallback, so
the result starts `id, name`; the list is truncated to at most 3 entries.
-/
theorem c8_id_prepended (t : String) (schema : TableSchema)
    (h : schema.columns.any (fun col => col.name = "name") = true) :
    (getDropdownDisplayFields t (some schema)).take 2 = ["id", "name"] ∧
    (getDropdownDisplayFields t (some schema)).length ≤ 3 := by
  simp only [getDropdownDisplayFields]
  have hfilter :
      priorityFields.filter
        (fun field => schema.columns.any (fun col => col.name = field)) =
      "name" :: (["title", "first_name", "username", "email", "description",
                  "label", "display_name"].filter
        (fun field => schema.columns.any (fun col => col.name = field))) := by
    simp only [priorityFields]
    rw [List.filter_cons_of_pos]
    exact h
  rw [hfilter]
  have hid : "id" ∉
      "name" :: (["title", "first_name", "username", "email", "description",
                  "label", "display_name"].filter
        (fun field => schema.columns.any (fun col => col.name = field))) := by
    intro hmem
    rcases List.mem_cons.mp hmem with h1 | h2
    · exact absurd h1 (by decide)
    · have h3 := List.mem_of_mem_filter h2
      revert h3
      decide
  simp only [List.isEmpty_cons, Bool.false_eq_true, if_false, if_neg hid]
  constructor
  · rfl
  · simp only [List.take, List.length_cons]
    have := List.length_take_le 1
      (["title", "first_name", "username", "email", "description",
        "label", "display_name"].filter
        (fun field => schema.columns.any (fun col => col.name = field)))
    omega

/-- C8 witness: a `books.author_id` reference into `authors(id, name)`. -/
theorem c8_witness :
    (getDropdownDisplayFields "books" (some authorsSchema)).take 2 = ["id", "name"] ∧
    (getDropdownDisplayFields "books" (some authorsSchema)).length ≤ 3 :=
  c8_id_prepended "books" authorsSchema (by decide)
